import Mathlib

/-!
Verification development for the multicopter rigid-body dynamics simulator
(`multicopterDynamicsSim.hpp`).  The repository ships only the class
declaration; every behavioural definition below is therefore modelled from
the specification document, faithful to its wording, and the spec's claims
are settled against that model.

Numbers: the C++ `double` arithmetic is idealised as exact real arithmetic
(`ℝ`).  Vectors in ℝ³ are a three-field structure `V3`; 3×3 matrices are the
nine-field structure `M3`; attitudes are Mathlib quaternions `ℍ[ℝ]`.
The `std::default_random_engine` / `std::normal_distribution` pair is
modelled as an explicit stream of standard-normal draws `rngStream : ℕ → ℝ`
together with a cursor `rngIndex`; drawing one scalar reads the stream at
the cursor and advances it by one.

A stepping entry point returns the updated simulator paired with
`Option SimError`; a C++ invalid-argument failure is `(sim, some
SimError.invalidArgument)` with the simulator returned unchanged, matching
the reject-before-any-mutation contract.
-/

/-- A vector in ℝ³ (Eigen `Vector3d`). -/
@[ext]
structure V3 where
  x : ℝ
  y : ℝ
  z : ℝ

namespace V3

instance : Zero V3 := ⟨⟨0, 0, 0⟩⟩

instance : Add V3 := ⟨fun a b => ⟨a.x + b.x, a.y + b.y, a.z + b.z⟩⟩

instance : Neg V3 := ⟨fun a => ⟨-a.x, -a.y, -a.z⟩⟩

instance : SMul ℝ V3 := ⟨fun c a => ⟨c * a.x, c * a.y, c * a.z⟩⟩

@[simp] theorem zero_x : (0 : V3).x = 0 := rfl

@[simp] theorem zero_y : (0 : V3).y = 0 := rfl

@[simp] theorem zero_z : (0 : V3).z = 0 := rfl

@[simp] theorem add_x (a b : V3) : (a + b).x = a.x + b.x := rfl

@[simp] theorem add_y (a b : V3) : (a + b).y = a.y + b.y := rfl

@[simp] theorem add_z (a b : V3) : (a + b).z = a.z + b.z := rfl

@[simp] theorem neg_x (a : V3) : (-a).x = -a.x := rfl

@[simp] theorem neg_y (a : V3) : (-a).y = -a.y := rfl

@[simp] theorem neg_z (a : V3) : (-a).z = -a.z := rfl

@[simp] theorem smul_x (c : ℝ) (a : V3) : (c • a).x = c * a.x := rfl

@[simp] theorem smul_y (c : ℝ) (a : V3) : (c • a).y = c * a.y := rfl

@[simp] theorem smul_z (c : ℝ) (a : V3) : (c • a).z = c * a.z := rfl

@[simp] theorem mk_x (a b c : ℝ) : (V3.mk a b c).x = a := rfl

@[simp] theorem mk_y (a b c : ℝ) : (V3.mk a b c).y = b := rfl

@[simp] theorem mk_z (a b c : ℝ) : (V3.mk a b c).z = c := rfl

@[simp] theorem add_zero (a : V3) : a + 0 = a := by ext <;> simp

@[simp] theorem zero_add (a : V3) : 0 + a = a := by ext <;> simp

@[simp] theorem smul_zero (c : ℝ) : c • (0 : V3) = 0 := by ext <;> simp

@[simp] theorem zero_smul (a : V3) : (0 : ℝ) • a = 0 := by ext <;> simp

@[simp] theorem neg_zero : -(0 : V3) = 0 := by ext <;> simp

@[simp] theorem mk_zero : (V3.mk 0 0 0) = 0 := rfl

/-- Euclidean norm of a 3-vector (Eigen `.norm()`). -/
noncomputable def norm (v : V3) : ℝ := Real.sqrt (v.x ^ 2 + v.y ^ 2 + v.z ^ 2)

@[simp] theorem norm_zero : norm 0 = 0 := by simp [norm]

/-- Cross product in ℝ³. -/
def cross (a b : V3) : V3 :=
  ⟨a.y * b.z - a.z * b.y, a.z * b.x - a.x * b.z, a.x * b.y - a.y * b.x⟩

@[simp] theorem cross_zero (a : V3) : cross a 0 = 0 := by ext <;> simp [cross]

@[simp] theorem zero_cross (a : V3) : cross 0 a = 0 := by ext <;> simp [cross]

end V3

/-- A 3×3 real matrix (Eigen `Matrix3d`), stored entrywise. -/
structure M3 where
  m00 : ℝ
  m01 : ℝ
  m02 : ℝ
  m10 : ℝ
  m11 : ℝ
  m12 : ℝ
  m20 : ℝ
  m21 : ℝ
  m22 : ℝ

namespace M3

/-- Matrix–vector product. -/
def mulV (A : M3) (v : V3) : V3 :=
  ⟨A.m00 * v.x + A.m01 * v.y + A.m02 * v.z,
   A.m10 * v.x + A.m11 * v.y + A.m12 * v.z,
   A.m20 * v.x + A.m21 * v.y + A.m22 * v.z⟩

@[simp] theorem mulV_zero (A : M3) : A.mulV 0 = 0 := by ext <;> simp [mulV]

/-- Determinant of a 3×3 matrix. -/
def det (A : M3) : ℝ :=
  A.m00 * (A.m11 * A.m22 - A.m12 * A.m21)
    - A.m01 * (A.m10 * A.m22 - A.m12 * A.m20)
    + A.m02 * (A.m10 * A.m21 - A.m11 * A.m20)

/-- Inverse of a 3×3 matrix by the adjugate formula (Eigen `.inverse()`). -/
noncomputable def inv (A : M3) : M3 :=
  let d := A.det
  ⟨(A.m11 * A.m22 - A.m12 * A.m21) / d,
   (A.m02 * A.m21 - A.m01 * A.m22) / d,
   (A.m01 * A.m12 - A.m02 * A.m11) / d,
   (A.m12 * A.m20 - A.m10 * A.m22) / d,
   (A.m00 * A.m22 - A.m02 * A.m20) / d,
   (A.m02 * A.m10 - A.m00 * A.m12) / d,
   (A.m10 * A.m21 - A.m11 * A.m20) / d,
   (A.m01 * A.m20 - A.m00 * A.m21) / d,
   (A.m00 * A.m11 - A.m01 * A.m10) / d⟩

/-- The identity matrix. -/
def identity : M3 := ⟨1, 0, 0, 0, 1, 0, 0, 0, 1⟩

end M3

/-- The pure quaternion `(0, v)` built from a 3-vector. -/
def quatOfVec (v : V3) : Quaternion ℝ := ⟨0, v.x, v.y, v.z⟩

@[simp] theorem quatOfVec_zero : quatOfVec 0 = 0 := by
  simp only [quatOfVec, V3.zero_x, V3.zero_y, V3.zero_z]
  rfl

/-- Quaternion renormalisation (Eigen `.normalize()`): scale by the inverse
norm. -/
noncomputable def qnormalize (q : Quaternion ℝ) : Quaternion ℝ := ‖q‖⁻¹ • q

theorem norm_qnormalize (q : Quaternion ℝ) (hq : q ≠ 0) : ‖qnormalize q‖ = 1 := by
  rw [qnormalize, norm_smul, norm_inv, norm_norm]
  exact inv_mul_cancel₀ (norm_ne_zero_iff.mpr hq)

/-- Rotation of a vector by a quaternion (Eigen `q * v`): the vector part of
`q ⊗ (0, v) ⊗ q*`. -/
def rotateByQuat (q : Quaternion ℝ) (v : V3) : V3 :=
  let p := q * quatOfVec v * star q
  ⟨p.imI, p.imJ, p.imK⟩

@[simp] theorem rotateByQuat_zero (q : Quaternion ℝ) : rotateByQuat q 0 = 0 := by
  simp [rotateByQuat]

/-- Clamp a scalar into `[lo, hi]` (`std::max(lo, std::min(hi, x))`). -/
noncomputable def clampD (lo hi x : ℝ) : ℝ := max lo (min hi x)

theorem clampD_mem (lo hi x : ℝ) (h : lo ≤ hi) :
    lo ≤ clampD lo hi x ∧ clampD lo hi x ≤ hi :=
  ⟨le_max_left _ _, max_le h (min_le_left _ _)⟩

/-- Sum of a list of 3-vectors. -/
def listVSum (l : List V3) : V3 := l.foldr (· + ·) 0

@[simp] theorem listVSum_nil : listVSum [] = 0 := rfl

@[simp] theorem listVSum_cons (v : V3) (l : List V3) :
    listVSum (v :: l) = v + listVSum l := rfl

/-- `vec1 + val * vec2`, elementwise over motor arrays (source helper
`vectorAffineOp`). -/
def vectorAffineOp (vec1 vec2 : List ℝ) (val : ℝ) : List ℝ :=
  List.zipWith (fun a b => a + val * b) vec1 vec2

/-- `val * vec1`, elementwise (source helper `vectorScalarProd`). -/
def vectorScalarProd (vec1 : List ℝ) (val : ℝ) : List ℝ :=
  vec1.map (fun a => val * a)

/-- Elementwise clamp of a motor array into per-motor `[min, max]` bounds
(source helper `vectorBoundOp`). -/
noncomputable def vectorBoundOp (vec1 minvec maxvec : List ℝ) : List ℝ :=
  List.zipWith (fun a bounds => clampD bounds.1 bounds.2 a) vec1 (minvec.zip maxvec)

/-- Invalid-argument class of errors raised at the library boundary
(spec §7: fail fast, leave prior state untouched). -/
inductive SimError where
  | invalidArgument : SimError
  | indexOutOfRange : SimError
deriving DecidableEq

/-- The simulator object: configuration, RNG stream, and vehicle state,
mirroring the members of the C++ class `MulticopterDynamicsSim`. -/
@[ext]
structure MulticopterDynamicsSim where
  numCopter : ℕ
  motorFrame : List (M3 × V3)
  motorDirection : List ℝ
  thrustCoefficient : List ℝ
  torqueCoefficient : List ℝ
  motorTimeConstant : List ℝ
  maxMotorSpeed : List ℝ
  minMotorSpeed : List ℝ
  dragCoefficient : ℝ
  aeroMomentCoefficient : M3
  vehicleMass : ℝ
  vehicleInertia : M3
  momentProcessNoiseAutoCorrelation : ℝ
  forceProcessNoiseAutoCorrelation : ℝ
  rngStream : ℕ → ℝ
  rngIndex : ℕ
  gravity : V3
  motorSpeed : List ℝ
  velocity : V3
  position : V3
  angularVelocity : V3
  attitude : Quaternion ℝ
  stochForce : V3

namespace MulticopterDynamicsSim

/-- The body z-axis of a motor frame, expressed in the body frame. -/
def motorAxis (frame : M3 × V3) : V3 := frame.1.mulV ⟨0, 0, 1⟩

/-- Modelled from the spec (§4.1, implementation file absent): body-frame
total thrust, the sum over motors of
`thrustCoefficient_i · speed_i² · (motor z-axis in body frame)`. -/
def getThrust (sim : MulticopterDynamicsSim) (motorSpeed : List ℝ) : V3 :=
  listVSum (List.zipWith
    (fun cf s => (cf.1 * s ^ 2) • motorAxis cf.2)
    (sim.thrustCoefficient.zip sim.motorFrame) motorSpeed)

/-- Modelled from the spec (§4.1, implementation file absent): body-frame
control moment, `Σ (arm_i × thrustForce_i) + direction_i · torqueCoefficient_i
· speed_i² · axis_i`. -/
def getControlMoment (sim : MulticopterDynamicsSim) (motorSpeed : List ℝ) : V3 :=
  listVSum (List.zipWith
    (fun cfg s =>
      let tc := cfg.1.1
      let qc := cfg.1.2.1
      let dir := cfg.1.2.2
      let frame := cfg.2
      V3.cross frame.2 ((tc * s ^ 2) • motorAxis frame)
        + (dir * qc * s ^ 2) • motorAxis frame)
    ((sim.thrustCoefficient.zip (sim.torqueCoefficient.zip sim.motorDirection)).zip
      sim.motorFrame) motorSpeed)

/-- Modelled from the spec (§4.2, implementation file absent): aerodynamic
damping moment `−aeroMomentCoefficient · ω · |ω|`. -/
noncomputable def getAeroMoment (sim : MulticopterDynamicsSim)
    (angularVelocity : V3) : V3 :=
  -(V3.norm angularVelocity • (sim.aeroMomentCoefficient.mulV angularVelocity))

/-- Modelled from the spec (§4.2, implementation file absent): drag force
`−dragCoefficient · v · |v|` in the world frame. -/
noncomputable def getDragForce (sim : MulticopterDynamicsSim) (velocity : V3) : V3 :=
  -((sim.dragCoefficient * V3.norm velocity) • velocity)

/-- Modelled from the spec (§4.2, implementation file absent): velocity
derivative `(1/mass) · (R(attitude)·thrust + drag + stochForce) + gravity`. -/
noncomputable def getVelocityDerivative (sim : MulticopterDynamicsSim)
    (attitude : Quaternion ℝ) (stochForce velocity : V3)
    (motorSpeed : List ℝ) : V3 :=
  sim.vehicleMass⁻¹ • (rotateByQuat attitude (sim.getThrust motorSpeed)
      + sim.getDragForce velocity + stochForce)
    + sim.gravity

/-- Modelled from the spec (§4.2, implementation file absent): Euler
rigid-body equation `inertia⁻¹ · (controlMoment + aeroMoment + stochMoment −
ω × (inertia·ω))`. -/
noncomputable def getAngularVelocityDerivative (sim : MulticopterDynamicsSim)
    (motorSpeed : List ℝ) (angularVelocity stochMoment : V3) : V3 :=
  (M3.inv sim.vehicleInertia).mulV
    (sim.getControlMoment motorSpeed + sim.getAeroMoment angularVelocity
      + stochMoment
      + -(V3.cross angularVelocity (sim.vehicleInertia.mulV angularVelocity)))

/-- Modelled from the spec (§4.2, implementation file absent): quaternion
kinematics `0.5 · attitude ⊗ (0, ω)`. -/
noncomputable def getAttitudeDerivative (attitude : Quaternion ℝ)
    (angularVelocity : V3) : Quaternion ℝ :=
  ((1 : ℝ) / 2) • (attitude * quatOfVec angularVelocity)

/-- Modelled from the spec (§4.1, implementation file absent): per-motor
first-order lag `(clamp(command_i, min_i, max_i) − current_i) /
timeConstant_i`. -/
noncomputable def getMotorSpeedDerivative (sim : MulticopterDynamicsSim)
    (motorSpeed motorSpeedCommand : List ℝ) : List ℝ :=
  List.zipWith
    (fun sc bounds => (clampD bounds.2.1 bounds.2.2 sc.2 - sc.1) / bounds.1)
    (motorSpeed.zip motorSpeedCommand)
    (sim.motorTimeConstant.zip (sim.minMotorSpeed.zip sim.maxMotorSpeed))

/-- Modelled from the spec (§4.5, implementation file absent): specific force
handed to the inertial sensor — thrust, drag and the retained stochastic
force divided by mass (gravity excluded). -/
noncomputable def getVehicleSpecificForce (sim : MulticopterDynamicsSim) : V3 :=
  sim.vehicleMass⁻¹ • (rotateByQuat sim.attitude (sim.getThrust sim.motorSpeed)
    + sim.getDragForce sim.velocity + sim.stochForce)

/-- Modelled from the spec (§4.3, implementation file absent): one
Euler–Maruyama noise sample — three consecutive standard-normal draws scaled
by `sqrt(noisePower / dt)`. -/
noncomputable def stochSample (stream : ℕ → ℝ) (idx : ℕ) (power dt : ℝ) : V3 :=
  ⟨Real.sqrt (power / dt) * stream idx,
   Real.sqrt (power / dt) * stream (idx + 1),
   Real.sqrt (power / dt) * stream (idx + 2)⟩

/-- The integrable part of the vehicle state (and, reused, its derivative). -/
@[ext]
structure DState where
  pos : V3
  vel : V3
  ang : V3
  att : Quaternion ℝ
  mot : List ℝ

/-- The current integrable state of the simulator. -/
def coreState (sim : MulticopterDynamicsSim) : DState :=
  ⟨sim.position, sim.velocity, sim.angularVelocity, sim.attitude, sim.motorSpeed⟩

/-- Modelled from the spec (§2, §4.2, implementation file absent): the full
state derivative at a (possibly intermediate) state, for a fixed noise
sample. -/
noncomputable def stateDeriv (sim : MulticopterDynamicsSim)
    (motorSpeedCommand : List ℝ) (stochForce stochMoment : V3)
    (st : DState) : DState :=
  ⟨st.vel,
   sim.getVelocityDerivative st.att stochForce st.vel st.mot,
   sim.getAngularVelocityDerivative st.mot st.ang stochMoment,
   getAttitudeDerivative st.att st.ang,
   sim.getMotorSpeedDerivative st.mot motorSpeedCommand⟩

/-- `st + c • k` on integrable states. -/
def axpy (c : ℝ) (k st : DState) : DState :=
  ⟨st.pos + c • k.pos, st.vel + c • k.vel, st.ang + c • k.ang,
   st.att + c • k.att, vectorAffineOp st.mot k.mot c⟩

/-- Pointwise sum of two derivative states. -/
def dadd (a b : DState) : DState :=
  ⟨a.pos + b.pos, a.vel + b.vel, a.ang + b.ang, a.att + b.att,
   List.zipWith (· + ·) a.mot b.mot⟩

/-- Pointwise scaling of a derivative state. -/
def dsmul (c : ℝ) (a : DState) : DState :=
  ⟨c • a.pos, c • a.vel, c • a.ang, c • a.att, vectorScalarProd a.mot c⟩

/-- Modelled from the spec (§4.4, implementation file absent): the explicit
first-order (Euler) step.  On `dt ≤ 0` or a command-length mismatch it fails
with `invalidArgument` and returns the simulator unchanged; otherwise it
advances every state component by `dt` times its derivative, retains the new
stochastic-force sample, and unconditionally renormalises the attitude and
clamps the motor speeds. -/
noncomputable def proceedState_ExplicitEuler (sim : MulticopterDynamicsSim)
    (dt : ℝ) (motorSpeedCommand : List ℝ) :
    MulticopterDynamicsSim × Option SimError :=
  if dt ≤ 0 ∨ motorSpeedCommand.length ≠ sim.numCopter then
    (sim, some SimError.invalidArgument)
  else
    let sF := stochSample sim.rngStream sim.rngIndex
      sim.forceProcessNoiseAutoCorrelation dt
    let sM := stochSample sim.rngStream (sim.rngIndex + 3)
      sim.momentProcessNoiseAutoCorrelation dt
    let raw := axpy dt (sim.stateDeriv motorSpeedCommand sF sM sim.coreState)
      sim.coreState
    ({ sim with
        position := raw.pos
        velocity := raw.vel
        angularVelocity := raw.ang
        attitude := qnormalize raw.att
        motorSpeed := vectorBoundOp raw.mot sim.minMotorSpeed sim.maxMotorSpeed
        stochForce := sF
        rngIndex := sim.rngIndex + 6 }, none)

/-- Modelled from the spec (§4.4, implementation file absent): the raw
(pre-renormalisation, pre-clamp) result of the four-stage fourth-order
combination `state + dt/6 · (k1 + 2k2 + 2k3 + k4)` for a FIXED noise sample
`(sF, sM)`: the same single stochastic force/moment pair is handed to all
four stage evaluations. -/
noncomputable def rk4RawWith (sim : MulticopterDynamicsSim) (dt : ℝ)
    (motorSpeedCommand : List ℝ) (sF sM : V3) : DState :=
  let st := sim.coreState
  let k1 := sim.stateDeriv motorSpeedCommand sF sM st
  let k2 := sim.stateDeriv motorSpeedCommand sF sM (axpy (dt / 2) k1 st)
  let k3 := sim.stateDeriv motorSpeedCommand sF sM (axpy (dt / 2) k2 st)
  let k4 := sim.stateDeriv motorSpeedCommand sF sM (axpy dt k3 st)
  axpy (dt / 6) (dadd k1 (dadd (dsmul 2 k2) (dadd (dsmul 2 k3) k4))) st

/-- Modelled from the spec (§4.3, §4.4, implementation file absent): the raw
fourth-order combination with the step's single noise draw — three
standard-normal scalars for the force, three for the moment. -/
noncomputable def rk4Raw (sim : MulticopterDynamicsSim) (dt : ℝ)
    (motorSpeedCommand : List ℝ) : DState :=
  rk4RawWith sim dt motorSpeedCommand
    (stochSample sim.rngStream sim.rngIndex
      sim.forceProcessNoiseAutoCorrelation dt)
    (stochSample sim.rngStream (sim.rngIndex + 3)
      sim.momentProcessNoiseAutoCorrelation dt)

/-- Modelled from the spec (§4.4, implementation file absent): the
fourth-order (four-stage) step with the same validation, noise retention and
post-step invariant restoration as the first-order step. -/
noncomputable def proceedState_RK4 (sim : MulticopterDynamicsSim)
    (dt : ℝ) (motorSpeedCommand : List ℝ) :
    MulticopterDynamicsSim × Option SimError :=
  if dt ≤ 0 ∨ motorSpeedCommand.length ≠ sim.numCopter then
    (sim, some SimError.invalidArgument)
  else
    let raw := rk4Raw sim dt motorSpeedCommand
    ({ sim with
        position := raw.pos
        velocity := raw.vel
        angularVelocity := raw.ang
        attitude := qnormalize raw.att
        motorSpeed := vectorBoundOp raw.mot sim.minMotorSpeed sim.maxMotorSpeed
        stochForce := stochSample sim.rngStream sim.rngIndex
          sim.forceProcessNoiseAutoCorrelation dt
        rngIndex := sim.rngIndex + 6 }, none)

/-- Modelled from the spec (§6, implementation file absent): overwrite
position and attitude only. -/
def setVehiclePosition (sim : MulticopterDynamicsSim) (position : V3)
    (attitude : Quaternion ℝ) : MulticopterDynamicsSim :=
  { sim with position := position, attitude := attitude }

/-- Modelled from the spec (§6, implementation file absent): unconditional
overwrite of all five state components. -/
def setVehicleState (sim : MulticopterDynamicsSim) (position velocity
    angularVelocity : V3) (attitude : Quaternion ℝ)
    (motorSpeed : List ℝ) : MulticopterDynamicsSim :=
  { sim with
      position := position
      velocity := velocity
      angularVelocity := angularVelocity
      attitude := attitude
      motorSpeed := motorSpeed }

/-- Bulk state read (C++ `getVehicleState` output parameters as a tuple). -/
def getVehicleState (sim : MulticopterDynamicsSim) :
    V3 × V3 × V3 × Quaternion ℝ × List ℝ :=
  (sim.position, sim.velocity, sim.angularVelocity, sim.attitude, sim.motorSpeed)

/-- Modelled from the spec (§6, implementation file absent): set every motor
speed to its own configured minimum. -/
def resetMotorSpeeds (sim : MulticopterDynamicsSim) : MulticopterDynamicsSim :=
  { sim with motorSpeed := sim.minMotorSpeed }

/-- Modelled from the spec (§4.5, implementation file absent): the inertial
sensor is an external collaborator consumed through a narrow contract; it is
abstracted as a function from (specific force, angular velocity) to
(accelerometer, gyroscope) readings.  `getIMUMeasurement` hands it the
specific force built from the retained stochastic-force sample. -/
noncomputable def getIMUMeasurement (sim : MulticopterDynamicsSim)
    (imuModel : V3 → V3 → V3 × V3) : V3 × V3 :=
  imuModel sim.getVehicleSpecificForce sim.angularVelocity

/-- Modelled from the spec (§6, §3 lifecycle, implementation file absent):
the full-parameter constructor — uniform motor properties, identity motor
frames and positive spin directions as placeholders, zero/identity
invariant-satisfying initial state, motor speeds at the configured minimum,
zero-initialised retained stochastic force. -/
noncomputable def mkSim (numCopter : ℕ) (thrustCoefficient torqueCoefficient
    minMotorSpeed maxMotorSpeed motorTimeConstant vehicleMass : ℝ)
    (vehicleInertia aeroMomentCoefficient : M3) (dragCoefficient
    momentProcessNoiseAutoCorrelation forceProcessNoiseAutoCorrelation : ℝ)
    (gravity : V3) (rngStream : ℕ → ℝ) : MulticopterDynamicsSim :=
  { numCopter := numCopter
    motorFrame := List.replicate numCopter (M3.identity, 0)
    motorDirection := List.replicate numCopter 1
    thrustCoefficient := List.replicate numCopter thrustCoefficient
    torqueCoefficient := List.replicate numCopter torqueCoefficient
    motorTimeConstant := List.replicate numCopter motorTimeConstant
    maxMotorSpeed := List.replicate numCopter maxMotorSpeed
    minMotorSpeed := List.replicate numCopter minMotorSpeed
    dragCoefficient := dragCoefficient
    aeroMomentCoefficient := aeroMomentCoefficient
    vehicleMass := vehicleMass
    vehicleInertia := vehicleInertia
    momentProcessNoiseAutoCorrelation := momentProcessNoiseAutoCorrelation
    forceProcessNoiseAutoCorrelation := forceProcessNoiseAutoCorrelation
    rngStream := rngStream
    rngIndex := 0
    gravity := gravity
    motorSpeed := List.replicate numCopter minMotorSpeed
    velocity := 0
    position := 0
    angularVelocity := 0
    attitude := 1
    stochForce := 0 }

/-- Modelled from the spec (§6, implementation file absent): the
count-only constructor with placeholder physical defaults. -/
noncomputable def mkSimDefault (numCopter : ℕ) (rngStream : ℕ → ℝ) : MulticopterDynamicsSim :=
  mkSim numCopter 0 0 0 1 1 1 M3.identity M3.identity 0 0 0 0 rngStream

/-- Configuration well-formedness (spec §3): per-motor arrays all have length
`numCopter` and every motor's minimum speed is at most its maximum. -/
def WellFormed (sim : MulticopterDynamicsSim) : Prop :=
  sim.minMotorSpeed.length = sim.numCopter ∧
  sim.maxMotorSpeed.length = sim.numCopter ∧
  sim.motorTimeConstant.length = sim.numCopter ∧
  sim.motorSpeed.length = sim.numCopter ∧
  ∀ i, i < sim.numCopter →
    sim.minMotorSpeed.getD i 0 ≤ sim.maxMotorSpeed.getD i 0

end MulticopterDynamicsSim

open MulticopterDynamicsSim

theorem listGetD_zipWith {α β γ : Type} (f : α → β → γ) (a : List α)
    (b : List β) (d1 : α) (d2 : β) (d3 : γ) (i : ℕ) (h1 : i < a.length)
    (h2 : i < b.length) :
    (List.zipWith f a b).getD i d3 = f (a.getD i d1) (b.getD i d2) := by
  have hz : i < (List.zipWith f a b).length := by
    simp only [List.length_zipWith]; omega
  rw [List.getD_eq_getElem _ _ hz, List.getD_eq_getElem _ _ h1,
    List.getD_eq_getElem _ _ h2]
  exact List.getElem_zipWith ..

theorem listGetD_zip {α β : Type} (a : List α) (b : List β) (d1 : α) (d2 : β)
    (i : ℕ) (h1 : i < a.length) (h2 : i < b.length) :
    (a.zip b).getD i (d1, d2) = (a.getD i d1, b.getD i d2) := by
  have hz : i < (a.zip b).length := by simp only [List.length_zip]; omega
  rw [List.getD_eq_getElem _ _ hz, List.getD_eq_getElem _ _ h1,
    List.getD_eq_getElem _ _ h2]
  exact List.getElem_zip ..

theorem listGetD_replicate {α : Type} (n i : ℕ) (x d : α) (h : i < n) :
    (List.replicate n x).getD i d = x := by
  have hz : i < (List.replicate n x).length := by simpa using h
  rw [List.getD_eq_getElem _ _ hz]
  exact List.getElem_replicate ..

/-- C4: for every motor `i`, the motor-speed derivative computed by
`getMotorSpeedDerivative` equals
`(clamp(command_i, min_i, max_i) − currentSpeed_i) / timeConstant_i`,
a first-order lag toward the command clamped to the configured bounds. -/
theorem claim_C4 (sim : MulticopterDynamicsSim)
    (motorSpeed motorSpeedCommand : List ℝ) (i : ℕ)
    (h1 : i < motorSpeed.length) (h2 : i < motorSpeedCommand.length)
    (h3 : i < sim.motorTimeConstant.length)
    (h4 : i < sim.minMotorSpeed.length) (h5 : i < sim.maxMotorSpeed.length) :
    (sim.getMotorSpeedDerivative motorSpeed motorSpeedCommand).getD i 0 =
      (clampD (sim.minMotorSpeed.getD i 0) (sim.maxMotorSpeed.getD i 0)
          (motorSpeedCommand.getD i 0) - motorSpeed.getD i 0) /
        sim.motorTimeConstant.getD i 0 := by
  unfold MulticopterDynamicsSim.getMotorSpeedDerivative
  rw [listGetD_zipWith _ _ _ ((0 : ℝ), (0 : ℝ)) ((0 : ℝ), ((0 : ℝ), (0 : ℝ)))
      0 i (by simp only [List.length_zip]; omega)
      (by simp only [List.length_zip, List.length_zipWith]; omega),
    listGetD_zip _ _ (0 : ℝ) (0 : ℝ) i h1 h2,
    listGetD_zip _ _ (0 : ℝ) ((0 : ℝ), (0 : ℝ)) i h3
      (by simp only [List.length_zip]; omega),
    listGetD_zip _ _ (0 : ℝ) (0 : ℝ) i h4 h5]

theorem claim_C4_sat :
    ((mkSimDefault 1 (fun _ => 0)).getMotorSpeedDerivative [0] [5]).getD 0 0 =
      (clampD ((mkSimDefault 1 (fun _ => 0)).minMotorSpeed.getD 0 0)
          ((mkSimDefault 1 (fun _ => 0)).maxMotorSpeed.getD 0 0)
          (([(5 : ℝ)]).getD 0 0) - ([(0 : ℝ)]).getD 0 0) /
        (mkSimDefault 1 (fun _ => 0)).motorTimeConstant.getD 0 0 :=
  claim_C4 (mkSimDefault 1 (fun _ => 0)) [0] [5] 0 (by simp) (by simp)
    (by simp [mkSimDefault, mkSim]) (by simp [mkSimDefault, mkSim])
    (by simp [mkSimDefault, mkSim])

/-- C5: a zero-magnitude input vector yields exactly the zero vector from
both `getDragForce` and `getAeroMoment` — zero velocity gives zero drag and
zero angular velocity gives zero damping moment. -/
theorem claim_C5 (sim : MulticopterDynamicsSim) :
    sim.getDragForce 0 = 0 ∧ sim.getAeroMoment 0 = 0 := by
  constructor
  · simp [MulticopterDynamicsSim.getDragForce]
  · simp [MulticopterDynamicsSim.getAeroMoment]

/-- C7: `setVehicleState(p, v, w, q, m)` immediately followed by the full
state read returns exactly `(p, v, w, q, m)`. -/
theorem claim_C7 (sim : MulticopterDynamicsSim) (p v w : V3)
    (q : Quaternion ℝ) (m : List ℝ) (h : m.length = sim.numCopter) :
    (sim.setVehicleState p v w q m).getVehicleState = (p, v, w, q, m) := rfl

theorem claim_C7_sat :
    ((mkSimDefault 2 (fun _ => 0)).setVehicleState ⟨1, 2, 3⟩ ⟨4, 5, 6⟩
        ⟨7, 8, 9⟩ 1 [3, 4]).getVehicleState =
      (⟨1, 2, 3⟩, ⟨4, 5, 6⟩, ⟨7, 8, 9⟩, 1, [3, 4]) :=
  claim_C7 (mkSimDefault 2 (fun _ => 0)) ⟨1, 2, 3⟩ ⟨4, 5, 6⟩ ⟨7, 8, 9⟩ 1
    [3, 4] (by simp [mkSimDefault, mkSim])

/-- C8: `setVehiclePosition` updates only position and attitude; velocity,
angular velocity and the motor speeds are unchanged. -/
theorem claim_C8 (sim : MulticopterDynamicsSim) (p : V3) (q : Quaternion ℝ) :
    (sim.setVehiclePosition p q).position = p ∧
    (sim.setVehiclePosition p q).attitude = q ∧
    (sim.setVehiclePosition p q).velocity = sim.velocity ∧
    (sim.setVehiclePosition p q).angularVelocity = sim.angularVelocity ∧
    (sim.setVehiclePosition p q).motorSpeed = sim.motorSpeed :=
  ⟨rfl, rfl, rfl, rfl, rfl⟩

/-- C9: `resetMotorSpeeds` sets every motor's speed to that motor's own
configured minimum, regardless of the prior values, and leaves every other
state component unchanged. -/
theorem claim_C9 (sim : MulticopterDynamicsSim) :
    sim.resetMotorSpeeds.motorSpeed = sim.minMotorSpeed ∧
    sim.resetMotorSpeeds.position = sim.position ∧
    sim.resetMotorSpeeds.velocity = sim.velocity ∧
    sim.resetMotorSpeeds.angularVelocity = sim.angularVelocity ∧
    sim.resetMotorSpeeds.attitude = sim.attitude ∧
    sim.resetMotorSpeeds.stochForce = sim.stochForce :=
  ⟨rfl, rfl, rfl, rfl, rfl, rfl⟩

/-- C10: a freshly constructed simulator holds the zero-initialised retained
stochastic-force sample, and for any simulator whose retained sample is
zero, the specific force handed to the IMU contains no process-noise
contribution. -/
theorem claim_C10 (n : ℕ) (tc qc mn mx tau m : ℝ) (inertia aero : M3)
    (dc mp fp : ℝ) (g : V3) (s : ℕ → ℝ) (sim : MulticopterDynamicsSim)
    (h : sim.stochForce = 0) :
    (mkSim n tc qc mn mx tau m inertia aero dc mp fp g s).stochForce = 0 ∧
    (mkSimDefault n s).stochForce = 0 ∧
    sim.getVehicleSpecificForce = sim.vehicleMass⁻¹ •
      (rotateByQuat sim.attitude (sim.getThrust sim.motorSpeed) +
        sim.getDragForce sim.velocity) := by
  refine ⟨rfl, rfl, ?_⟩
  rw [MulticopterDynamicsSim.getVehicleSpecificForce, h, V3.add_zero]

theorem claim_C10_sat :
    (mkSimDefault 0 (fun _ => 0)).getVehicleSpecificForce =
      (mkSimDefault 0 (fun _ => 0)).vehicleMass⁻¹ •
        (rotateByQuat (mkSimDefault 0 (fun _ => 0)).attitude
            ((mkSimDefault 0 (fun _ => 0)).getThrust
              (mkSimDefault 0 (fun _ => 0)).motorSpeed) +
          (mkSimDefault 0 (fun _ => 0)).getDragForce
            (mkSimDefault 0 (fun _ => 0)).velocity) :=
  (claim_C10 0 0 0 0 1 1 1 M3.identity M3.identity 0 0 0 0 (fun _ => 0)
    (mkSimDefault 0 (fun _ => 0)) rfl).2.2

/-- C1: for both step entry points, `dt ≤ 0` or a command-length mismatch
fails with the invalid-argument error and returns the simulator exactly
unchanged (all state components and the retained stochastic-force sample
included); otherwise the step fully completes with no error. -/
theorem claim_C1 (sim : MulticopterDynamicsSim) (dt : ℝ) (cmd : List ℝ) :
    ((dt ≤ 0 ∨ cmd.length ≠ sim.numCopter) →
      sim.proceedState_ExplicitEuler dt cmd =
        (sim, some SimError.invalidArgument) ∧
      sim.proceedState_RK4 dt cmd = (sim, some SimError.invalidArgument)) ∧
    (0 < dt → cmd.length = sim.numCopter →
      (sim.proceedState_ExplicitEuler dt cmd).2 = none ∧
      (sim.proceedState_RK4 dt cmd).2 = none) := by
  constructor
  · intro h
    constructor
    · rw [MulticopterDynamicsSim.proceedState_ExplicitEuler, if_pos h]
    · rw [MulticopterDynamicsSim.proceedState_RK4, if_pos h]
  · intro h1 h2
    have h : ¬(dt ≤ 0 ∨ cmd.length ≠ sim.numCopter) := by
      push_neg
      exact ⟨h1, h2⟩
    constructor
    · rw [MulticopterDynamicsSim.proceedState_ExplicitEuler, if_neg h]
    · rw [MulticopterDynamicsSim.proceedState_RK4, if_neg h]

theorem claim_C1_sat :
    (mkSimDefault 0 (fun _ => 0)).proceedState_ExplicitEuler 0 [] =
      (mkSimDefault 0 (fun _ => 0), some SimError.invalidArgument) ∧
    (mkSimDefault 0 (fun _ => 0)).proceedState_RK4 0 [] =
      (mkSimDefault 0 (fun _ => 0), some SimError.invalidArgument) ∧
    ((mkSimDefault 0 (fun _ => 0)).proceedState_ExplicitEuler 1 []).2 = none ∧
    ((mkSimDefault 0 (fun _ => 0)).proceedState_RK4 1 []).2 = none :=
  ⟨((claim_C1 _ 0 []).1 (Or.inl le_rfl)).1,
   ((claim_C1 _ 0 []).1 (Or.inl le_rfl)).2,
   ((claim_C1 _ 1 []).2 one_pos rfl).1,
   ((claim_C1 _ 1 []).2 one_pos rfl).2⟩

theorem quat_one_add_smul_ne_zero (c : ℝ) (v : V3) :
    (1 : Quaternion ℝ) + c • quatOfVec v ≠ 0 := by
  intro h
  have h2 := congrArg Quaternion.re h
  simp [quatOfVec] at h2

theorem euler_att_raw (q : Quaternion ℝ) (v : V3) (dt : ℝ) :
    q + dt • getAttitudeDerivative q v = q * (1 + (dt / 2) • quatOfVec v) := by
  rw [MulticopterDynamicsSim.getAttitudeDerivative, smul_smul, mul_add, mul_one,
    mul_smul_comm]
  have hc : dt * (1 / 2) = dt / 2 := by ring
  rw [hc]

theorem euler_att_ne_zero (q : Quaternion ℝ) (hq : q ≠ 0) (v : V3) (dt : ℝ) :
    q + dt • getAttitudeDerivative q v ≠ 0 := by
  rw [euler_att_raw]
  exact mul_ne_zero hq (quat_one_add_smul_ne_zero _ _)

theorem vectorBoundOp_mem (v minv maxv : List ℝ) (i : ℕ) (h1 : i < v.length)
    (h2 : i < minv.length) (h3 : i < maxv.length)
    (hle : minv.getD i 0 ≤ maxv.getD i 0) :
    minv.getD i 0 ≤ (vectorBoundOp v minv maxv).getD i 0 ∧
    (vectorBoundOp v minv maxv).getD i 0 ≤ maxv.getD i 0 := by
  rw [vectorBoundOp,
    listGetD_zipWith _ _ _ (0 : ℝ) ((0 : ℝ), (0 : ℝ)) 0 i h1
      (by simp only [List.length_zip]; omega),
    listGetD_zip _ _ (0 : ℝ) (0 : ℝ) i h2 h3]
  exact clampD_mem _ _ _ hle

theorem length_vectorAffineOp (a b : List ℝ) (c : ℝ) :
    (vectorAffineOp a b c).length = min a.length b.length := by
  simp [vectorAffineOp]

theorem length_getMotorSpeedDerivative (sim : MulticopterDynamicsSim)
    (a cmd : List ℝ) :
    (sim.getMotorSpeedDerivative a cmd).length =
      min (min a.length cmd.length) (min sim.motorTimeConstant.length
        (min sim.minMotorSpeed.length sim.maxMotorSpeed.length)) := by
  simp [MulticopterDynamicsSim.getMotorSpeedDerivative, List.length_zipWith,
    List.length_zip]

theorem length_rk4Raw_mot (sim : MulticopterDynamicsSim) (dt : ℝ)
    (cmd : List ℝ) (hl1 : sim.minMotorSpeed.length = sim.numCopter)
    (hl2 : sim.maxMotorSpeed.length = sim.numCopter)
    (hl3 : sim.motorTimeConstant.length = sim.numCopter)
    (hl4 : sim.motorSpeed.length = sim.numCopter)
    (hcmd : cmd.length = sim.numCopter) :
    (rk4Raw sim dt cmd).mot.length = sim.numCopter := by
  simp only [rk4Raw, rk4RawWith, MulticopterDynamicsSim.stateDeriv,
    MulticopterDynamicsSim.coreState, axpy, dadd, dsmul, vectorAffineOp,
    vectorScalarProd, MulticopterDynamicsSim.getMotorSpeedDerivative,
    List.length_zipWith, List.length_zip, List.length_map, hl1, hl2, hl3,
    hl4, hcmd]
  omega

/-- C2: after a successful step of either integrator (from a well-formed
configuration, nonzero prior attitude and non-degenerate fourth-order
combination), the attitude quaternion has norm exactly 1 — in particular
within 1e-9 of 1 — and every motor speed lies in its configured
`[min, max]` interval: both invariants are restored at the end of each
step. -/
theorem claim_C2 (sim : MulticopterDynamicsSim) (dt : ℝ) (cmd : List ℝ)
    (hwf : sim.WellFormed) (hdt : 0 < dt) (hcmd : cmd.length = sim.numCopter)
    (hatt : sim.attitude ≠ 0) (hraw : (rk4Raw sim dt cmd).att ≠ 0) :
    (‖(sim.proceedState_ExplicitEuler dt cmd).1.attitude‖ = 1 ∧
      |‖(sim.proceedState_ExplicitEuler dt cmd).1.attitude‖ - 1| ≤ 1e-9 ∧
      ∀ i, i < sim.numCopter →
        sim.minMotorSpeed.getD i 0 ≤
            (sim.proceedState_ExplicitEuler dt cmd).1.motorSpeed.getD i 0 ∧
          (sim.proceedState_ExplicitEuler dt cmd).1.motorSpeed.getD i 0 ≤
            sim.maxMotorSpeed.getD i 0) ∧
    (‖(sim.proceedState_RK4 dt cmd).1.attitude‖ = 1 ∧
      |‖(sim.proceedState_RK4 dt cmd).1.attitude‖ - 1| ≤ 1e-9 ∧
      ∀ i, i < sim.numCopter →
        sim.minMotorSpeed.getD i 0 ≤
            (sim.proceedState_RK4 dt cmd).1.motorSpeed.getD i 0 ∧
          (sim.proceedState_RK4 dt cmd).1.motorSpeed.getD i 0 ≤
            sim.maxMotorSpeed.getD i 0) := by
  obtain ⟨hl1, hl2, hl3, hl4, hle⟩ := hwf
  have hc : ¬(dt ≤ 0 ∨ cmd.length ≠ sim.numCopter) := by
    push_neg
    exact ⟨hdt, hcmd⟩
  constructor
  · rw [MulticopterDynamicsSim.proceedState_ExplicitEuler, if_neg hc]
    dsimp only [axpy, MulticopterDynamicsSim.stateDeriv,
      MulticopterDynamicsSim.coreState]
    have hn : ‖qnormalize (sim.attitude +
        dt • getAttitudeDerivative sim.attitude sim.angularVelocity)‖ = 1 :=
      norm_qnormalize _ (euler_att_ne_zero _ hatt _ _)
    refine ⟨hn, by rw [hn]; norm_num, ?_⟩
    intro i hi
    refine vectorBoundOp_mem _ _ _ i ?_ (by omega) (by omega) (hle i hi)
    rw [length_vectorAffineOp, length_getMotorSpeedDerivative]
    omega
  · rw [MulticopterDynamicsSim.proceedState_RK4, if_neg hc]
    dsimp only
    have hn : ‖qnormalize (rk4Raw sim dt cmd).att‖ = 1 :=
      norm_qnormalize _ hraw
    refine ⟨hn, by rw [hn]; norm_num, ?_⟩
    intro i hi
    refine vectorBoundOp_mem _ _ _ i ?_ (by omega) (by omega) (hle i hi)
    rw [length_rk4Raw_mot sim dt cmd hl1 hl2 hl3 hl4 hcmd]
    exact hi
theorem claim_C2_sat :
    ‖((mkSimDefault 0 (fun _ => 0)).proceedState_ExplicitEuler 1 []).1.attitude‖ = 1 ∧
    ‖((mkSimDefault 0 (fun _ => 0)).proceedState_RK4 1 []).1.attitude‖ = 1 := by
  have h := claim_C2 (mkSimDefault 0 (fun _ => 0)) 1 []
    (by simp [MulticopterDynamicsSim.WellFormed, mkSimDefault, mkSim])
    one_pos rfl
    (by simp [mkSimDefault, mkSim])
    (by simp [rk4Raw, rk4RawWith, MulticopterDynamicsSim.stateDeriv,
      MulticopterDynamicsSim.coreState, axpy, dadd, dsmul, mkSimDefault,
      mkSim, MulticopterDynamicsSim.getAttitudeDerivative,
      MulticopterDynamicsSim.getAngularVelocityDerivative,
      MulticopterDynamicsSim.getControlMoment,
      MulticopterDynamicsSim.getAeroMoment,
      MulticopterDynamicsSim.getThrust,
      MulticopterDynamicsSim.getDragForce,
      MulticopterDynamicsSim.getVelocityDerivative,
      MulticopterDynamicsSim.getMotorSpeedDerivative,
      MulticopterDynamicsSim.stochSample, vectorAffineOp, vectorScalarProd,
      listVSum])
  exact ⟨h.1.1, h.2.1⟩

theorem stochSample_stream_congr (s t : ℕ → ℝ) (idx : ℕ) (power dt : ℝ)
    (ht : ∀ k, idx ≤ k → k < idx + 3 → t k = s k) :
    stochSample t idx power dt = stochSample s idx power dt := by
  unfold MulticopterDynamicsSim.stochSample
  rw [ht idx (by omega) (by omega), ht (idx + 1) (by omega) (by omega),
    ht (idx + 2) (by omega) (by omega)]

theorem rk4Raw_stream_congr (sim : MulticopterDynamicsSim) (t : ℕ → ℝ)
    (dt : ℝ) (cmd : List ℝ)
    (ht : ∀ k, sim.rngIndex ≤ k → k < sim.rngIndex + 6 →
      t k = sim.rngStream k) :
    rk4Raw { sim with rngStream := t } dt cmd = rk4Raw sim dt cmd := by
  have hsF : stochSample t sim.rngIndex
      sim.forceProcessNoiseAutoCorrelation dt =
      stochSample sim.rngStream sim.rngIndex
        sim.forceProcessNoiseAutoCorrelation dt :=
    stochSample_stream_congr _ _ _ _ _ (fun k h1 h2 => ht k h1 (by omega))
  have hsM : stochSample t (sim.rngIndex + 3)
      sim.momentProcessNoiseAutoCorrelation dt =
      stochSample sim.rngStream (sim.rngIndex + 3)
        sim.momentProcessNoiseAutoCorrelation dt :=
    stochSample_stream_congr _ _ _ _ _ (fun k h1 h2 => ht k (by omega) (by omega))
  show rk4RawWith { sim with rngStream := t } dt cmd
      (stochSample t sim.rngIndex sim.forceProcessNoiseAutoCorrelation dt)
      (stochSample t (sim.rngIndex + 3)
        sim.momentProcessNoiseAutoCorrelation dt) = rk4Raw sim dt cmd
  rw [hsF, hsM]
  rfl

theorem proceedState_RK4_stream_congr (sim : MulticopterDynamicsSim)
    (t : ℕ → ℝ) (dt : ℝ) (cmd : List ℝ)
    (ht : ∀ k, sim.rngIndex ≤ k → k < sim.rngIndex + 6 →
      t k = sim.rngStream k) :
    ({ sim with rngStream := t }.proceedState_RK4 dt cmd).1 =
      { (sim.proceedState_RK4 dt cmd).1 with rngStream := t } ∧
    ({ sim with rngStream := t }.proceedState_RK4 dt cmd).2 =
      (sim.proceedState_RK4 dt cmd).2 := by
  have hsF : stochSample t sim.rngIndex
      sim.forceProcessNoiseAutoCorrelation dt =
      stochSample sim.rngStream sim.rngIndex
        sim.forceProcessNoiseAutoCorrelation dt :=
    stochSample_stream_congr _ _ _ _ _ (fun k h1 h2 => ht k h1 (by omega))
  have hr := rk4Raw_stream_congr sim t dt cmd ht
  by_cases hc : dt ≤ 0 ∨ cmd.length ≠ sim.numCopter
  · rw [MulticopterDynamicsSim.proceedState_RK4,
      MulticopterDynamicsSim.proceedState_RK4]
    dsimp only
    rw [if_pos hc, if_pos hc]
    exact ⟨rfl, rfl⟩
  · rw [MulticopterDynamicsSim.proceedState_RK4,
      MulticopterDynamicsSim.proceedState_RK4]
    dsimp only
    rw [if_neg hc, if_neg hc]
    dsimp only
    rw [hr, hsF]
    exact ⟨rfl, rfl⟩

/-- C3: each step draws exactly one stochastic force/moment sample (six
standard-normal scalars, advancing the RNG cursor by exactly six for either
integrator); the fourth-order step is the four-stage combination fed the
same single sample at every stage and reads the noise stream only at those
six positions; and the retained sample after the step — the one a
subsequent IMU query's specific force is built from — is identically the
step's force sample, not an independent draw. -/
theorem claim_C3 (sim : MulticopterDynamicsSim) (dt : ℝ) (cmd : List ℝ)
    (t : ℕ → ℝ) (hdt : 0 < dt) (hcmd : cmd.length = sim.numCopter)
    (ht : ∀ k, sim.rngIndex ≤ k → k < sim.rngIndex + 6 →
      t k = sim.rngStream k) :
    ((sim.proceedState_ExplicitEuler dt cmd).1.rngIndex = sim.rngIndex + 6 ∧
      (sim.proceedState_RK4 dt cmd).1.rngIndex = sim.rngIndex + 6) ∧
    rk4Raw sim dt cmd = rk4RawWith sim dt cmd
      (stochSample sim.rngStream sim.rngIndex
        sim.forceProcessNoiseAutoCorrelation dt)
      (stochSample sim.rngStream (sim.rngIndex + 3)
        sim.momentProcessNoiseAutoCorrelation dt) ∧
    (sim.proceedState_RK4 dt cmd).1.stochForce =
      stochSample sim.rngStream sim.rngIndex
        sim.forceProcessNoiseAutoCorrelation dt ∧
    (sim.proceedState_RK4 dt cmd).1.getVehicleSpecificForce =
      (sim.proceedState_RK4 dt cmd).1.vehicleMass⁻¹ •
        (rotateByQuat (sim.proceedState_RK4 dt cmd).1.attitude
            ((sim.proceedState_RK4 dt cmd).1.getThrust
              (sim.proceedState_RK4 dt cmd).1.motorSpeed) +
          (sim.proceedState_RK4 dt cmd).1.getDragForce
            (sim.proceedState_RK4 dt cmd).1.velocity +
          stochSample sim.rngStream sim.rngIndex
            sim.forceProcessNoiseAutoCorrelation dt) ∧
    (∀ f : V3 → V3 → V3 × V3,
      (sim.proceedState_RK4 dt cmd).1.getIMUMeasurement f =
        f (sim.proceedState_RK4 dt cmd).1.getVehicleSpecificForce
          (sim.proceedState_RK4 dt cmd).1.angularVelocity) ∧
    ({ sim with rngStream := t }.proceedState_RK4 dt cmd).1 =
      { (sim.proceedState_RK4 dt cmd).1 with rngStream := t } := by
  have hc : ¬(dt ≤ 0 ∨ cmd.length ≠ sim.numCopter) := by
    push_neg
    exact ⟨hdt, hcmd⟩
  refine ⟨⟨?_, ?_⟩, rfl, ?_, ?_, fun f => rfl,
    (proceedState_RK4_stream_congr sim t dt cmd ht).1⟩
  · rw [MulticopterDynamicsSim.proceedState_ExplicitEuler, if_neg hc]
  · rw [MulticopterDynamicsSim.proceedState_RK4, if_neg hc]
  · rw [MulticopterDynamicsSim.proceedState_RK4, if_neg hc]
  · rw [MulticopterDynamicsSim.proceedState_RK4, if_neg hc]
    dsimp only
    rfl

theorem claim_C3_sat :
    ((mkSimDefault 0 (fun _ => 0)).proceedState_ExplicitEuler 1 []).1.rngIndex =
      (mkSimDefault 0 (fun _ => 0)).rngIndex + 6 ∧
    ((mkSimDefault 0 (fun _ => 0)).proceedState_RK4 1 []).1.rngIndex =
      (mkSimDefault 0 (fun _ => 0)).rngIndex + 6 :=
  (claim_C3 (mkSimDefault 0 (fun _ => 0)) 1 [] (fun _ => 0) one_pos rfl
    (fun _ _ _ => rfl)).1

theorem stochSample_zero_power (s : ℕ → ℝ) (idx : ℕ) (dt : ℝ) :
    stochSample s idx 0 dt = 0 := by
  ext <;> simp [MulticopterDynamicsSim.stochSample]

theorem listVSum_zipWith_zero {α : Type} (f : α → ℝ → V3)
    (h : ∀ a, f a 0 = 0) :
    ∀ (l : List α) (n : ℕ),
      listVSum (List.zipWith f l (List.replicate n 0)) = 0
  | [], _ => rfl
  | _ :: _, 0 => rfl
  | a :: l, n + 1 => by
    simp [List.replicate_succ, h, listVSum_zipWith_zero f h l n]

theorem getThrust_replicate_zero (sim : MulticopterDynamicsSim) (n : ℕ) :
    sim.getThrust (List.replicate n 0) = 0 := by
  rw [MulticopterDynamicsSim.getThrust]
  exact listVSum_zipWith_zero _ (fun a => by simp) _ n

theorem getControlMoment_replicate_zero (sim : MulticopterDynamicsSim)
    (n : ℕ) : sim.getControlMoment (List.replicate n 0) = 0 := by
  rw [MulticopterDynamicsSim.getControlMoment]
  exact listVSum_zipWith_zero _ (fun a => by simp) _ n

theorem getDragForce_dragzero (sim : MulticopterDynamicsSim)
    (h : sim.dragCoefficient = 0) (v : V3) : sim.getDragForce v = 0 := by
  simp [MulticopterDynamicsSim.getDragForce, h]

theorem getVelocityDerivative_linear (sim : MulticopterDynamicsSim)
    (h : sim.dragCoefficient = 0) (att : Quaternion ℝ) (v : V3) (n : ℕ) :
    sim.getVelocityDerivative att 0 v (List.replicate n 0) = sim.gravity := by
  simp [MulticopterDynamicsSim.getVelocityDerivative,
    getThrust_replicate_zero, getDragForce_dragzero sim h]

theorem getAeroMoment_zero (sim : MulticopterDynamicsSim) :
    sim.getAeroMoment 0 = 0 := by
  simp [MulticopterDynamicsSim.getAeroMoment]

theorem getAngularVelocityDerivative_linear (sim : MulticopterDynamicsSim)
    (n : ℕ) :
    sim.getAngularVelocityDerivative (List.replicate n 0) 0 0 = 0 := by
  simp [MulticopterDynamicsSim.getAngularVelocityDerivative,
    getControlMoment_replicate_zero, getAeroMoment_zero]

theorem getAttitudeDerivative_zero (att : Quaternion ℝ) :
    getAttitudeDerivative att 0 = 0 := by
  simp [MulticopterDynamicsSim.getAttitudeDerivative]

theorem clampD_zero (hi : ℝ) (h : 0 ≤ hi) : clampD 0 hi 0 = 0 := by
  simp [clampD, min_eq_right h]

theorem getMotorSpeedDerivative_zero (sim : MulticopterDynamicsSim)
    (hmn : sim.minMotorSpeed = List.replicate sim.numCopter 0)
    (hmxl : sim.maxMotorSpeed.length = sim.numCopter)
    (hmx : ∀ x ∈ sim.maxMotorSpeed, 0 ≤ x)
    (htl : sim.motorTimeConstant.length = sim.numCopter) :
    sim.getMotorSpeedDerivative (List.replicate sim.numCopter 0)
      (List.replicate sim.numCopter 0) = List.replicate sim.numCopter 0 := by
  rw [MulticopterDynamicsSim.getMotorSpeedDerivative, hmn]
  refine List.ext_getElem ?_ ?_
  · simp [List.length_zipWith, List.length_zip, hmxl, htl]
  · intro i h1 h2
    simp only [List.length_zipWith, List.length_zip, List.length_replicate,
      hmxl, htl, lt_min_iff, min_self] at h1
    simp only [List.getElem_zipWith, List.getElem_zip, List.getElem_replicate]
    rw [clampD_zero _ (hmx _ (List.getElem_mem _))]
    simp

theorem vectorAffineOp_replicate_zero (n : ℕ) (c : ℝ) :
    vectorAffineOp (List.replicate n 0) (List.replicate n 0) c =
      List.replicate n 0 := by
  rw [vectorAffineOp, List.zipWith_replicate]
  simp

theorem vectorScalarProd_replicate_zero (n : ℕ) (c : ℝ) :
    vectorScalarProd (List.replicate n 0) c = List.replicate n 0 := by
  rw [vectorScalarProd, List.map_replicate]
  simp

theorem zipWith_add_replicate_zero (n : ℕ) :
    List.zipWith (· + ·) (List.replicate n (0 : ℝ)) (List.replicate n 0) =
      List.replicate n 0 := by
  rw [List.zipWith_replicate]
  simp

theorem vectorBoundOp_replicate_zero (sim : MulticopterDynamicsSim)
    (hmn : sim.minMotorSpeed = List.replicate sim.numCopter 0)
    (hmxl : sim.maxMotorSpeed.length = sim.numCopter)
    (hmx : ∀ x ∈ sim.maxMotorSpeed, 0 ≤ x) :
    vectorBoundOp (List.replicate sim.numCopter 0) sim.minMotorSpeed
      sim.maxMotorSpeed = List.replicate sim.numCopter 0 := by
  rw [vectorBoundOp, hmn]
  refine List.ext_getElem ?_ ?_
  · simp [List.length_zipWith, List.length_zip, hmxl]
  · intro i h1 h2
    simp only [List.length_zipWith, List.length_zip, List.length_replicate,
      hmxl, lt_min_iff, min_self] at h1
    simp only [List.getElem_zipWith, List.getElem_zip, List.getElem_replicate]
    exact clampD_zero _ (hmx _ (List.getElem_mem _))

/-- The exactly-linear configuration of spec §8: zero drag coefficient, zero
process-noise powers, all motor speeds zero with zero minimum speeds and
nonnegative maximum speeds, zero angular velocity. -/
def LinearCase (sim : MulticopterDynamicsSim) : Prop :=
  sim.dragCoefficient = 0 ∧
  sim.forceProcessNoiseAutoCorrelation = 0 ∧
  sim.momentProcessNoiseAutoCorrelation = 0 ∧
  sim.motorSpeed = List.replicate sim.numCopter 0 ∧
  sim.minMotorSpeed = List.replicate sim.numCopter 0 ∧
  sim.maxMotorSpeed.length = sim.numCopter ∧
  (∀ x ∈ sim.maxMotorSpeed, 0 ≤ x) ∧
  sim.motorTimeConstant.length = sim.numCopter ∧
  sim.angularVelocity = 0

theorem euler_step_linear (sim : MulticopterDynamicsSim) (dt : ℝ)
    (hdt : 0 < dt) (h : LinearCase sim) :
    (sim.proceedState_ExplicitEuler dt
        (List.replicate sim.numCopter 0)).1.velocity =
      sim.velocity + dt • sim.gravity ∧
    LinearCase (sim.proceedState_ExplicitEuler dt
      (List.replicate sim.numCopter 0)).1 := by
  obtain ⟨hd, hfp, hmp, hms, hmn, hmxl, hmx, htl, hw⟩ := h
  have hmd := getMotorSpeedDerivative_zero sim hmn hmxl hmx htl
  have hvb := vectorBoundOp_replicate_zero sim hmn hmxl hmx
  have hc : ¬(dt ≤ 0 ∨
      (List.replicate sim.numCopter (0 : ℝ)).length ≠ sim.numCopter) := by
    push_neg
    exact ⟨hdt, by simp⟩
  rw [MulticopterDynamicsSim.proceedState_ExplicitEuler, if_neg hc]
  dsimp only [axpy, MulticopterDynamicsSim.stateDeriv,
    MulticopterDynamicsSim.coreState]
  constructor
  · rw [hms, hfp, stochSample_zero_power,
      getVelocityDerivative_linear sim hd]
  · refine ⟨hd, hfp, hmp, ?_, hmn, hmxl, hmx, htl, ?_⟩
    · show vectorBoundOp (vectorAffineOp sim.motorSpeed
        (sim.getMotorSpeedDerivative sim.motorSpeed
          (List.replicate sim.numCopter 0)) dt) sim.minMotorSpeed
          sim.maxMotorSpeed = List.replicate sim.numCopter 0
      rw [hms, hmd, vectorAffineOp_replicate_zero, hvb]
    · show sim.angularVelocity + dt • sim.getAngularVelocityDerivative
        sim.motorSpeed sim.angularVelocity
          (stochSample sim.rngStream (sim.rngIndex + 3)
            sim.momentProcessNoiseAutoCorrelation dt) = 0
      rw [hw, hms, hmp, stochSample_zero_power,
        getAngularVelocityDerivative_linear]
      simp

theorem rk4Raw_linear (sim : MulticopterDynamicsSim) (dt : ℝ)
    (h : LinearCase sim) :
    rk4Raw sim dt (List.replicate sim.numCopter 0) =
      ⟨sim.position + (dt / 6) • (sim.velocity +
          ((2 : ℝ) • (sim.velocity + (dt / 2) • sim.gravity) +
            ((2 : ℝ) • (sim.velocity + (dt / 2) • sim.gravity) +
              (sim.velocity + dt • sim.gravity)))),
        sim.velocity + dt • sim.gravity, 0, sim.attitude,
        List.replicate sim.numCopter 0⟩ := by
  obtain ⟨hd, hfp, hmp, hms, hmn, hmxl, hmx, htl, hw⟩ := h
  have hmd := getMotorSpeedDerivative_zero sim hmn hmxl hmx htl
  have hvd := getVelocityDerivative_linear sim hd
  rw [rk4Raw, rk4RawWith, MulticopterDynamicsSim.coreState]
  simp only [hfp, hmp, stochSample_zero_power,
    MulticopterDynamicsSim.stateDeriv, axpy, dadd, dsmul, hms, hw,
    hmd, hvd, getAngularVelocityDerivative_linear, getAttitudeDerivative_zero,
    vectorAffineOp_replicate_zero, vectorScalarProd_replicate_zero,
    zipWith_add_replicate_zero, V3.smul_zero, V3.add_zero, smul_zero,
    add_zero]
  refine congrArg₂ (fun a b => DState.mk a b 0 sim.attitude
    (List.replicate sim.numCopter 0)) ?_ ?_
  · ext <;> dsimp <;> ring
  · ext <;> dsimp <;> ring

theorem rk4_step_linear (sim : MulticopterDynamicsSim) (dt : ℝ)
    (hdt : 0 < dt) (h : LinearCase sim) :
    (sim.proceedState_RK4 dt (List.replicate sim.numCopter 0)).1.velocity =
      sim.velocity + dt • sim.gravity ∧
    LinearCase (sim.proceedState_RK4 dt
      (List.replicate sim.numCopter 0)).1 := by
  have hraw := rk4Raw_linear sim dt h
  obtain ⟨hd, hfp, hmp, hms, hmn, hmxl, hmx, htl, hw⟩ := h
  have hvb := vectorBoundOp_replicate_zero sim hmn hmxl hmx
  have hc : ¬(dt ≤ 0 ∨
      (List.replicate sim.numCopter (0 : ℝ)).length ≠ sim.numCopter) := by
    push_neg
    exact ⟨hdt, by simp⟩
  rw [MulticopterDynamicsSim.proceedState_RK4, if_neg hc]
  dsimp only
  rw [hraw]
  refine ⟨rfl, hd, hfp, hmp, ?_, hmn, hmxl, hmx, htl, rfl⟩
  exact hvb

noncomputable def iterEuler (dt : ℝ) (cmd : List ℝ) :
    ℕ → MulticopterDynamicsSim → MulticopterDynamicsSim
  | 0, sim => sim
  | N + 1, sim => iterEuler dt cmd N (sim.proceedState_ExplicitEuler dt cmd).1

noncomputable def iterRK4 (dt : ℝ) (cmd : List ℝ) :
    ℕ → MulticopterDynamicsSim → MulticopterDynamicsSim
  | 0, sim => sim
  | N + 1, sim => iterRK4 dt cmd N (sim.proceedState_RK4 dt cmd).1

theorem iterEuler_linear (dt : ℝ) (hdt : 0 < dt) (N : ℕ) :
    ∀ sim : MulticopterDynamicsSim, LinearCase sim →
      (iterEuler dt (List.replicate sim.numCopter 0) N sim).velocity =
        sim.velocity + ((N : ℝ) * dt) • sim.gravity := by
  induction N with
  | zero =>
    intro sim h
    simp only [iterEuler, Nat.cast_zero, zero_mul, V3.zero_smul, V3.add_zero]
  | succ n ih =>
    intro sim h
    have hs := euler_step_linear sim dt hdt h
    have hc : ¬(dt ≤ 0 ∨
        (List.replicate sim.numCopter (0 : ℝ)).length ≠ sim.numCopter) := by
      push_neg
      exact ⟨hdt, by simp⟩
    have hnc : (sim.proceedState_ExplicitEuler dt
        (List.replicate sim.numCopter 0)).1.numCopter = sim.numCopter := by
      rw [MulticopterDynamicsSim.proceedState_ExplicitEuler, if_neg hc]
    have hg : (sim.proceedState_ExplicitEuler dt
        (List.replicate sim.numCopter 0)).1.gravity = sim.gravity := by
      rw [MulticopterDynamicsSim.proceedState_ExplicitEuler, if_neg hc]
    have hgoal := ih _ hs.2
    rw [hnc, hg, hs.1] at hgoal
    show (iterEuler dt (List.replicate sim.numCopter 0) n
        (sim.proceedState_ExplicitEuler dt
          (List.replicate sim.numCopter 0)).1).velocity =
      sim.velocity + ((↑(n + 1) : ℝ) * dt) • sim.gravity
    rw [hgoal]
    push_cast
    ext <;> dsimp <;> ring

theorem iterRK4_linear (dt : ℝ) (hdt : 0 < dt) (N : ℕ) :
    ∀ sim : MulticopterDynamicsSim, LinearCase sim →
      (iterRK4 dt (List.replicate sim.numCopter 0) N sim).velocity =
        sim.velocity + ((N : ℝ) * dt) • sim.gravity := by
  induction N with
  | zero =>
    intro sim h
    simp only [iterRK4, Nat.cast_zero, zero_mul, V3.zero_smul, V3.add_zero]
  | succ n ih =>
    intro sim h
    have hs := rk4_step_linear sim dt hdt h
    have hc : ¬(dt ≤ 0 ∨
        (List.replicate sim.numCopter (0 : ℝ)).length ≠ sim.numCopter) := by
      push_neg
      exact ⟨hdt, by simp⟩
    have hnc : (sim.proceedState_RK4 dt
        (List.replicate sim.numCopter 0)).1.numCopter = sim.numCopter := by
      rw [MulticopterDynamicsSim.proceedState_RK4, if_neg hc]
    have hg : (sim.proceedState_RK4 dt
        (List.replicate sim.numCopter 0)).1.gravity = sim.gravity := by
      rw [MulticopterDynamicsSim.proceedState_RK4, if_neg hc]
    have hgoal := ih _ hs.2
    rw [hnc, hg, hs.1] at hgoal
    show (iterRK4 dt (List.replicate sim.numCopter 0) n
        (sim.proceedState_RK4 dt
          (List.replicate sim.numCopter 0)).1).velocity =
      sim.velocity + ((↑(n + 1) : ℝ) * dt) • sim.gravity
    rw [hgoal]
    push_cast
    ext <;> dsimp <;> ring

/-- C6 (amended: the exactly-linear case additionally requires a zero drag
coefficient): with zero motor speeds under zero commands, zero initial
velocity and angular velocity, zero process-noise powers and zero drag,
N first-order steps of size dt give velocity = gravity · N · dt exactly,
and the fourth-order scheme gives the identical velocity. -/
theorem claim_C6 (sim : MulticopterDynamicsSim) (dt : ℝ) (N : ℕ)
    (hdt : 0 < dt) (h : LinearCase sim) (hv : sim.velocity = 0) :
    (iterEuler dt (List.replicate sim.numCopter 0) N sim).velocity =
      ((N : ℝ) * dt) • sim.gravity ∧
    (iterRK4 dt (List.replicate sim.numCopter 0) N sim).velocity =
      ((N : ℝ) * dt) • sim.gravity ∧
    (iterRK4 dt (List.replicate sim.numCopter 0) N sim).velocity =
      (iterEuler dt (List.replicate sim.numCopter 0) N sim).velocity := by
  have h1 := iterEuler_linear dt hdt N sim h
  have h2 := iterRK4_linear dt hdt N sim h
  rw [hv] at h1 h2
  rw [h1, h2]
  exact ⟨V3.zero_add _, V3.zero_add _, rfl⟩

theorem claim_C6_counterexample :
    ¬((iterEuler 1 (List.replicate (mkSim 0 0 0 0 1 1 1 M3.identity
        M3.identity 1 0 0 ⟨0, 0, 1⟩ (fun _ => 0)).numCopter 0) 2
        (mkSim 0 0 0 0 1 1 1 M3.identity M3.identity 1 0 0 ⟨0, 0, 1⟩
          (fun _ => 0))).velocity =
      ((2 : ℝ) * 1) • (mkSim 0 0 0 0 1 1 1 M3.identity M3.identity 1 0 0
        ⟨0, 0, 1⟩ (fun _ => 0)).gravity) := by
  norm_num [iterEuler, MulticopterDynamicsSim.proceedState_ExplicitEuler,
    mkSim, axpy, MulticopterDynamicsSim.stateDeriv,
    MulticopterDynamicsSim.coreState,
    MulticopterDynamicsSim.getVelocityDerivative,
    MulticopterDynamicsSim.getThrust, MulticopterDynamicsSim.getDragForce,
    MulticopterDynamicsSim.getAngularVelocityDerivative,
    MulticopterDynamicsSim.getControlMoment,
    MulticopterDynamicsSim.getAeroMoment,
    MulticopterDynamicsSim.getMotorSpeedDerivative,
    MulticopterDynamicsSim.getAttitudeDerivative,
    MulticopterDynamicsSim.stochSample, vectorAffineOp, vectorBoundOp,
    vectorScalarProd, listVSum, V3.norm, Real.sqrt_one, V3.ext_iff]

theorem claim_C6_sat :
    (iterEuler 1 (List.replicate (mkSimDefault 0 (fun _ => 0)).numCopter 0) 1
        (mkSimDefault 0 (fun _ => 0))).velocity =
      (((1 : ℕ) : ℝ) * 1) • (mkSimDefault 0 (fun _ => 0)).gravity :=
  (claim_C6 (mkSimDefault 0 (fun _ => 0)) 1 1 one_pos
    (by
      refine ⟨rfl, rfl, rfl, rfl, rfl, rfl, ?_, rfl, rfl⟩
      intro x hx
      simp [mkSimDefault, mkSim] at hx) rfl).1
